import Mathlib

/-!
Verification development for the `temporal-loop` repository
(`temporalloop/config.py`, `temporalloop/worker.py`).

The configuration-resolution model and the supervisor ("Looper") are
shallowly embedded: Python objects become structures, mutation becomes
functional update, `sys.exit(1)` / failed `assert` become `Except.error`,
and the dynamic `import_from_string` capability (defined in
`temporalloop/importer.py`, outside the modelled core; the spec calls it
`loadByName`) is an explicit `Loader` parameter.  Asynchronous execution
(`asyncio.gather`) is modelled by event traces: `gather` succeeds with all
results iff every task succeeds, and raises otherwise.
-/

/-- A dynamically-typed Python value as it appears in the reference fields
of `WorkerConfig`: a string name to be loaded, an already-concrete artifact
(class / callable / converter object, identified by a tag), `None`, or a
list of values. -/
inductive PyVal where
  | str : String → PyVal
  | obj : Nat → PyVal
  | pyNone : PyVal
  | list : List PyVal → PyVal


/-- Python truthiness test (`not x` in `WorkerConfig._merge`):
empty string, `None` and the empty list are falsy; any loaded object
(class instance, callable) is truthy. -/
def PyVal.falsy : PyVal → Bool
  | .str s => s = ""
  | .obj _ => false
  | .pyNone => true
  | .list xs => xs.isEmpty

/-- `isinstance(v, str)` test used by `WorkerConfig._load_function`. -/
def PyVal.isStr : PyVal → Bool
  | .str _ => true
  | _ => false

/-- The elements of a Python list value (used when iterating `pre_init`). -/
def PyVal.elems : PyVal → List PyVal
  | .list xs => xs
  | _ => []

/-- The external dynamic loader capability
(`import_from_string` / the spec's `loadByName`): maps a qualified name to
an artifact tag, or `none` when the import fails with
`ImportFromStringError`. -/
abbrev Loader := String → Option Nat

/-- The artifact tag reserved for the `WorkerFactory` class object itself
(`self.factory = WorkerFactory` in `WorkerConfig.__init__`, and the default
`factory=WorkerFactory` of `Config.__init__`). -/
def workerFactoryClass : PyVal := .obj 0

/-- Left-to-right effectful map over `Except`, aborting at the first error.
This is the translation of both the list comprehension in
`WorkerConfig._load_functions` and the `for` loop in `Config.load`
(a Python comprehension evaluates left to right and `sys.exit` aborts it),
and of `asyncio.gather`'s result (all results iff every task succeeds). -/
def mapME {α β : Type} (f : α → Except String β) : List α → Except String (List β)
  | [] => .ok []
  | x :: xs =>
    match f x with
    | .error e => .error e
    | .ok y =>
      match mapME f xs with
      | .error e => .error e
      | .ok ys => .ok (y :: ys)

/-- The state of a `temporalloop.config.WorkerConfig` object.  Fields mirror
the attributes set in `WorkerConfig.__init__` (config.py lines 77-120);
logging-irrelevant bookkeeping is kept verbatim.  Underscored fields hold
the raw (possibly name-valued) references, the plain fields hold the
resolved values filled in by `load`. -/
structure WorkerConfig where
  name : String
  host : String
  namespace_ : String
  factory : PyVal
  _factory : PyVal
  _workflows : List PyVal
  _activities : List PyVal
  _interceptors : List PyVal
  _converter : PyVal
  _pre_init : List PyVal
  pre_init : PyVal
  converter : PyVal
  queue : String
  workflows : List PyVal
  interceptors : List PyVal
  activities : List PyVal
  loaded : Bool
  behavior : String
  max_concurrent_workflow_tasks : Int
  max_concurrent_activities : Int
  debug_mode : Bool
  disable_eager_activity_execution : Bool
  metric_bind_address : String


/-- The keyword arguments of `WorkerConfig.__init__` (a raw worker dict from
the configuration file is exactly such a keyword set). -/
structure WorkerArgs where
  name : String
  factory : PyVal
  queue : String
  host : String
  namespace_ : String
  activities : List PyVal
  workflows : List PyVal
  interceptors : List PyVal
  converter : PyVal
  pre_init : List PyVal
  behavior : String
  max_concurrent_workflow_tasks : Int
  max_concurrent_activities : Int
  metric_bind_address : String
  debug_mode : Bool
  disable_eager_activity_execution : Bool


/-- The Python default values of `WorkerConfig.__init__`'s keyword
parameters (config.py lines 80-95): only `name` is required. -/
def WorkerArgs.default (name : String) : WorkerArgs :=
  { name := name
    factory := .str ""
    queue := "default-queue"
    host := ""
    namespace_ := ""
    activities := []
    workflows := []
    interceptors := []
    converter := .pyNone
    pre_init := []
    behavior := "merge"
    max_concurrent_workflow_tasks := 0
    max_concurrent_activities := 0
    metric_bind_address := ""
    debug_mode := false
    disable_eager_activity_execution := true }

/-- The body of `WorkerConfig.__init__` (config.py lines 96-120): stores the
raw references, points `factory` at the `WorkerFactory` class, and
initialises the resolved fields to their empty defaults with
`loaded = False`. -/
def WorkerConfig.init (a : WorkerArgs) : WorkerConfig :=
  { name := a.name
    host := a.host
    namespace_ := a.namespace_
    factory := workerFactoryClass
    _factory := a.factory
    _workflows := a.workflows
    _activities := a.activities
    _interceptors := a.interceptors
    _converter := a.converter
    _pre_init := a.pre_init
    pre_init := .list []
    converter := .pyNone
    queue := a.queue
    workflows := []
    interceptors := []
    activities := []
    loaded := false
    behavior := a.behavior
    max_concurrent_workflow_tasks := a.max_concurrent_workflow_tasks
    max_concurrent_activities := a.max_concurrent_activities
    debug_mode := a.debug_mode
    disable_eager_activity_execution := a.disable_eager_activity_execution
    metric_bind_address := a.metric_bind_address }

/-- An entry of `Config._workers`: either an already-constructed
`WorkerConfig` or a raw dict (`Sequence[Union[WorkerConfig, dict]]`). -/
inductive WorkerItem where
  | cfg : WorkerConfig → WorkerItem
  | dict : WorkerArgs → WorkerItem


/-- The state of a `temporalloop.config.Config` object (the GlobalConfig of
the spec).  Logging-only fields (`log_config`, `log_level`, `use_colors`,
`limit_concurrency`) configure the ambient logging system and never flow
into worker resolution, so they are omitted from the model. -/
structure Config where
  host : String
  namespace_ : String
  factory : PyVal
  interceptors : List PyVal
  converter : PyVal
  _workers : List WorkerItem
  pre_init : List PyVal
  workers : List WorkerConfig
  max_concurrent_activities : Int
  max_concurrent_workflow_tasks : Int
  loaded : Bool
  metric_bind_address : String


/-- `Config.__init__` with its Python default values (config.py lines
170-205), taking only the worker list; other fields can be overridden by
record update at the call site. -/
def Config.init (workers : List WorkerItem) : Config :=
  { host := "localhost:7233"
    namespace_ := "default"
    factory := workerFactoryClass
    interceptors := []
    converter := .pyNone
    _workers := workers
    pre_init := []
    workers := []
    max_concurrent_activities := 100
    max_concurrent_workflow_tasks := 100
    loaded := false
    metric_bind_address := "0.0.0.0:9000" }

/-- config.py line 123-124: `if not self.host: self.host = config.host`. -/
def WorkerConfig.mergeHost (w : WorkerConfig) (config : Config) : WorkerConfig :=
  if w.host = "" then { w with host := config.host } else w

/-- config.py line 125-126: inherit `namespace` when falsy. -/
def WorkerConfig.mergeNamespace (w : WorkerConfig) (config : Config) : WorkerConfig :=
  if w.namespace_ = "" then { w with namespace_ := config.namespace_ } else w

/-- config.py line 127-128: inherit the raw `factory` reference when falsy. -/
def WorkerConfig.mergeFactory (w : WorkerConfig) (config : Config) : WorkerConfig :=
  if w._factory.falsy then { w with _factory := config.factory } else w

/-- config.py line 129-130: inherit the raw `converter` reference when falsy. -/
def WorkerConfig.mergeConverter (w : WorkerConfig) (config : Config) : WorkerConfig :=
  if w._converter.falsy then { w with _converter := config.converter } else w

/-- config.py line 131-132: inherit the raw interceptor list when empty. -/
def WorkerConfig.mergeInterceptors (w : WorkerConfig) (config : Config) : WorkerConfig :=
  if w._interceptors.isEmpty then { w with _interceptors := config.interceptors } else w

/-- config.py line 133-134: inherit the raw pre-init hook list when empty. -/
def WorkerConfig.mergePreInit (w : WorkerConfig) (config : Config) : WorkerConfig :=
  if w._pre_init.isEmpty then { w with _pre_init := config.pre_init } else w

/-- config.py line 135-136: inherit `max_concurrent_workflow_tasks` when 0. -/
def WorkerConfig.mergeMcwt (w : WorkerConfig) (config : Config) : WorkerConfig :=
  if w.max_concurrent_workflow_tasks = 0 then
    { w with max_concurrent_workflow_tasks := config.max_concurrent_workflow_tasks } else w

/-- config.py line 137-138: inherit `max_concurrent_activities` when 0. -/
def WorkerConfig.mergeMca (w : WorkerConfig) (config : Config) : WorkerConfig :=
  if w.max_concurrent_activities = 0 then
    { w with max_concurrent_activities := config.max_concurrent_activities } else w

/-- config.py line 139-140: inherit `metric_bind_address` when falsy. -/
def WorkerConfig.mergeMetric (w : WorkerConfig) (config : Config) : WorkerConfig :=
  if w.metric_bind_address = "" then
    { w with metric_bind_address := config.metric_bind_address } else w

/-- `WorkerConfig._merge` (config.py lines 122-140): the nine
falsy-field-inheritance statements, executed in source order (each
statement reads only the field it assigns, so the sequential composition
is exactly the source's sequence of `if`s). -/
def WorkerConfig._merge (w : WorkerConfig) (config : Config) : WorkerConfig :=
  ((((((((w.mergeHost config).mergeNamespace config).mergeFactory config).mergeConverter
    config).mergeInterceptors config).mergePreInit config).mergeMcwt config).mergeMca
    config).mergeMetric config

/-- `WorkerConfig._load_function` (config.py lines 159-166): a string is
resolved through the loader — failure logs the offending reference and
calls `sys.exit(1)`, modelled as `Except.error` carrying that reference —
and any non-string value passes through unchanged. -/
def WorkerConfig._load_function (loader : Loader) (function : PyVal) : Except String PyVal :=
  match function with
  | .str s =>
    match loader s with
    | some a => .ok (.obj a)
    | none => .error s
  | v => .ok v

/-- `WorkerConfig._load_functions` (config.py lines 156-157): element-wise
resolution of a reference list. -/
def WorkerConfig._load_functions (loader : Loader) (functions : List PyVal) :
    Except String (List PyVal) :=
  mapME (WorkerConfig._load_function loader) functions

/-- The merge step of `WorkerConfig.load` (config.py lines 145-146): merge
with the global config exactly when `behavior == "merge"` and a global
config was passed. -/
def WorkerConfig.mergeStage (w : WorkerConfig) (global_config : Option Config) : WorkerConfig :=
  match global_config with
  | some g => if w.behavior = "merge" then w._merge g else w
  | none => w

/-- The resolution step of `WorkerConfig.load` (config.py lines 148-154):
resolve activities, workflows, interceptors, converter and factory, then
mark the config loaded.  Note the source's line 153: `pre_init` is passed
as a whole list to the scalar `_load_function` (not `_load_functions`), so
it passes through unchanged. -/
def WorkerConfig.loadRefs (loader : Loader) (w : WorkerConfig) : Except String WorkerConfig :=
  match WorkerConfig._load_functions loader w._activities with
  | .error e => .error e
  | .ok acts =>
  match WorkerConfig._load_functions loader w._workflows with
  | .error e => .error e
  | .ok wfs =>
  match WorkerConfig._load_functions loader w._interceptors with
  | .error e => .error e
  | .ok ints =>
  match WorkerConfig._load_function loader w._converter with
  | .error e => .error e
  | .ok conv =>
  match WorkerConfig._load_function loader w._factory with
  | .error e => .error e
  | .ok fact =>
  match WorkerConfig._load_function loader (.list w._pre_init) with
  | .error e => .error e
  | .ok pre =>
    .ok { w with activities := acts, workflows := wfs, interceptors := ints,
                 converter := conv, factory := fact, pre_init := pre, loaded := true }

/-- `WorkerConfig.load` (config.py lines 143-154): asserts the config is not
already loaded (`assert not self.loaded`), merges, then resolves. -/
def WorkerConfig.load (loader : Loader) (w : WorkerConfig) (global_config : Option Config) :
    Except String WorkerConfig :=
  if w.loaded then .error "assert not self.loaded" else
  WorkerConfig.loadRefs loader (w.mergeStage global_config)

/-- Coercion applied to each entry of `Config._workers` in `Config.load`:
a raw dict is turned into a `WorkerConfig` via `WorkerConfig.__init__`. -/
def WorkerItem.toWorker : WorkerItem → WorkerConfig
  | .cfg w => w
  | .dict d => WorkerConfig.init d

/-- `Config.load` (config.py lines 241-249): asserts not already loaded,
then, for each entry of the raw worker list in order, constructs the
`WorkerConfig` (for dict entries), loads it against this global config and
appends it to `workers`; finally marks the config loaded.  A load failure
(`sys.exit(1)`) aborts the whole pass with nothing returned. -/
def Config.load (loader : Loader) (c : Config) : Except String Config :=
  if c.loaded then .error "assert not self.loaded" else
  match mapME (fun it => WorkerConfig.load loader it.toWorker (some c)) c._workers with
  | .error e => .error e
  | .ok ws => .ok { c with workers := c.workers ++ ws, loaded := true }

/-! ## The supervisor (`temporalloop/worker.py`) -/

/-- `signal.SIGINT` (Unix signal 2, Ctrl+C). -/
def SIGINT : Int := 2

/-- `signal.SIGTERM` (Unix signal 15, `kill <pid>`). -/
def SIGTERM : Int := 15

/-- The keyword arguments the factory passes to the Worker Runtime's
`Worker(...)` constructor (worker.py lines 92-105).  `interceptors` holds
the interceptor classes being instantiated (`[x() for x in ...]`); client
construction itself is external. -/
structure TemporalWorkerArgs where
  task_queue : String
  workflows : List PyVal
  activities : List PyVal
  disable_eager_activity_execution : Bool
  max_concurrent_workflow_tasks : Int
  max_concurrent_activities : Int
  interceptors : List PyVal
  activity_executor_size : Int

/-- The arguments of the `Worker(...)` construction at the end of
`WorkerFactory.new_worker` (worker.py lines 92-105), as a function of the
resolved worker config.  `disable_eager_activity_execution` is the literal
`False` of line 97; the config's own field is never consulted. -/
def WorkerFactory.workerArgs (config : WorkerConfig) : TemporalWorkerArgs :=
  { task_queue := config.queue
    workflows := config.workflows
    activities := config.activities
    disable_eager_activity_execution := false
    max_concurrent_workflow_tasks := config.max_concurrent_workflow_tasks
    max_concurrent_activities := config.max_concurrent_activities
    interceptors := config.interceptors
    activity_executor_size := max (config.max_concurrent_activities + 1) 10 }

/-- Observable steps of `WorkerFactory.new_worker`: execution of one
pre-init hook, creation of the Prometheus runtime, the
`Client.connect(host, namespace, ...)` call, and the final `Worker(...)`
construction. -/
inductive FEvent where
  | preinit : PyVal → FEvent
  | newRuntime : String → FEvent
  | connect : String → String → FEvent
  | buildWorker : String → String → FEvent

/-- `WorkerFactory.execute_preinit` (worker.py lines 65-68): calls each hook
in list order, synchronously (each `x()` returns before the next starts). -/
def WorkerFactory.execute_preinit (fn : List PyVal) : List FEvent :=
  fn.map FEvent.preinit

/-- The event trace of `WorkerFactory.new_worker` (worker.py lines 70-105),
in source order: `await self.execute_preinit(...)` first, then the optional
metrics runtime, then `await Client.connect(config.host, ...)`, then the
`Worker(...)` construction for the configured queue. -/
def WorkerFactory.new_workerTrace (config : WorkerConfig) : List FEvent :=
  WorkerFactory.execute_preinit config.pre_init.elems
    ++ (if config.metric_bind_address = "" then []
        else [FEvent.newRuntime config.metric_bind_address])
    ++ [FEvent.connect config.host config.namespace_]
    ++ [FEvent.buildWorker config.name config.queue]

/-- The state of a `temporalloop.worker.Looper` object, extended with a
ledger of the `Worker.shutdown()` invocations issued so far (one entry per
call, by worker handle).  `should_exit` is initialised in `Looper.__init__`
and — as in the source — never consulted again. -/
structure Looper where
  workers : List String
  should_exit : Bool
  shutdownCalls : List String

/-- `Looper.__init__` (worker.py lines 109-112). -/
def Looper.init (workers : List String) : Looper :=
  { workers := workers, should_exit := false, shutdownCalls := [] }

/-- `Looper.stop` (worker.py lines 114-118): gathers `x.shutdown()` for
every worker in `self.workers` — one new shutdown invocation per worker. -/
def Looper.stop (lp : Looper) : Looper :=
  { lp with shutdownCalls := lp.shutdownCalls ++ lp.workers }

/-- `Looper.handle_exit` (worker.py lines 148-155): on SIGTERM or SIGINT it
logs and schedules `self.stop()` (unconditionally — there is no one-shot
guard); any other signal is logged as ignored and changes nothing. -/
def Looper.handle_exit (lp : Looper) (sig : Int) : Looper :=
  if sig = SIGTERM ∨ sig = SIGINT then lp.stop else lp

/-- Observable steps of `Looper.run`: construction of a worker
(`new_worker`, by worker name) and `Worker.run()` on a constructed worker
handle. -/
inductive LEvent where
  | construct : String → LEvent
  | workerRun : String → LEvent

/-- `LEvent` discriminator for `workerRun`. -/
def LEvent.isRun : LEvent → Bool
  | .workerRun _ => true
  | .construct _ => false

/-- `Looper.prepare_workers` (worker.py lines 130-135): build one worker per
resolved config and `asyncio.gather` them — the handle list is produced iff
every construction succeeds.  `build` stands for the external
`new_worker` effect (pre-init, connect, `Worker(...)`), returning a worker
handle or failing. -/
def Looper.prepare_workers (build : WorkerConfig → Except String String)
    (workers : List WorkerConfig) : Except String (List String) :=
  mapME build workers

/-- The event trace of `Looper.run` (worker.py lines 120-128): load the
config if not yet loaded, attempt construction of every worker
(`prepare_workers`; all construction attempts happen, in config order),
and only when every construction has succeeded invoke `Worker.run()` on
each handle.  The second component reports how the run ended. -/
def Looper.runTrace (loader : Loader) (build : WorkerConfig → Except String String)
    (c : Config) : List LEvent × Except String Unit :=
  match (if c.loaded then Except.ok c else Config.load loader c) with
  | .error e => ([], .error e)
  | .ok cfg =>
    let constructs := cfg.workers.map (fun w => LEvent.construct w.name)
    match Looper.prepare_workers build cfg.workers with
    | .error e => (constructs, .error e)
    | .ok handles => (constructs ++ handles.map LEvent.workerRun, .ok ())

/-! ## Concrete inputs used by witnesses and counterexamples -/

/-- A loader that resolves nothing (every import fails). -/
def loaderNone : Loader := fun _ => none

/-- A loader resolving the single qualified name `"mod:f"` to artifact 7. -/
def loaderModF : Loader := fun s => if s = "mod:f" then some 7 else none

/-- A global config whose raw worker list holds two dicts that share the
name `"w1"` (end-to-end scenario: duplicate `name` values). -/
def dupNameConfig : Config :=
  Config.init [.dict (WorkerArgs.default "w1"), .dict (WorkerArgs.default "w1")]

/-- A raw worker dict with `behavior="isolated"` and every optional field
left unset (all Python defaults). -/
def isolatedArgs : WorkerArgs :=
  { WorkerArgs.default "iso" with behavior := "isolated" }

/-- A merge-mode raw worker whose `max_concurrent_activities` was explicitly
passed as `0` — the object state `WorkerConfig.__init__` produces is
identical to leaving the field unset, which is exactly why the explicit
zero cannot survive the merge. -/
def explicitZeroWorker : WorkerConfig :=
  WorkerConfig.init { WorkerArgs.default "wz" with max_concurrent_activities := 0 }

/-- A merge-mode raw worker carrying one string reference in `activities`
and the same string reference in `pre_init`, plus a concrete factory. -/
def preInitWorker : WorkerConfig :=
  WorkerConfig.init { WorkerArgs.default "wp" with
    factory := .obj 3
    activities := [.str "mod:f"]
    pre_init := [.str "mod:f"] }

/-- A worker config whose references are all concrete (loadable under any
loader): factory artifact 3, no string references anywhere. -/
def concreteArgs (name : String) : WorkerArgs :=
  { WorkerArgs.default name with factory := .obj 3 }

/-- A global config with one loadable worker dict and one worker dict whose
converter is a dangling string reference `"missing:ref"`. -/
def danglingRefConfig : Config :=
  Config.init [.dict (concreteArgs "ok"),
               .dict { concreteArgs "bad" with converter := .str "missing:ref" }]

/-- A fully resolved worker spec used to exercise the factory trace: two
pre-init hooks, a metrics address, host `"h:1"`. -/
def tracedWorker : WorkerConfig :=
  { WorkerConfig.init (concreteArgs "wt") with
      pre_init := .list [.obj 11, .obj 12]
      host := "h:1"
      namespace_ := "ns"
      metric_bind_address := "0.0.0.0:9000"
      loaded := true }

/-- A loaded global config holding two resolved workers named `"a"` and
`"b"` (construction-barrier scenario). -/
def twoWorkerConfig : Config :=
  { Config.init [] with
      loaded := true
      workers := [{ WorkerConfig.init (concreteArgs "a") with loaded := true },
                  { WorkerConfig.init (concreteArgs "b") with loaded := true }] }

/-- A builder for which worker `"b"`'s construction fails while `"a"`'s
succeeds. -/
def buildBFails : WorkerConfig → Except String String :=
  fun w => if w.name = "b" then .error "connect refused" else .ok w.name

/-- A builder that always succeeds, returning the worker's name as handle. -/
def buildOk : WorkerConfig → Except String String :=
  fun w => .ok w.name

/-- A merge-mode worker with every inheritable field explicitly set to a
truthy value. -/
def truthyWorker : WorkerConfig :=
  WorkerConfig.init { WorkerArgs.default "wt" with
    factory := .obj 1
    host := "h:9"
    namespace_ := "ns9"
    interceptors := [.obj 4]
    converter := .obj 2
    pre_init := [.obj 5]
    max_concurrent_workflow_tasks := 7
    max_concurrent_activities := 8
    metric_bind_address := "m:1" }

/-- An isolated-mode worker whose references are concrete (so resolution
succeeds without any loader). -/
def isoWorker : WorkerConfig :=
  WorkerConfig.init { concreteArgs "iso" with behavior := "isolated" }

/-- The result of resolving `isoWorker` (computed once, used by witnesses). -/
def isoLoaded : WorkerConfig :=
  ((WorkerConfig.load loaderNone isoWorker (some (Config.init []))).toOption).getD isoWorker

/-- A merge-mode worker with every optional field unset. -/
def unsetWorker : WorkerConfig :=
  WorkerConfig.init (WorkerArgs.default "wu")

/-- The result of resolving `unsetWorker` against the default global
config. -/
def unsetLoaded : WorkerConfig :=
  ((WorkerConfig.load loaderNone unsetWorker (some (Config.init []))).toOption).getD unsetWorker

/-- The default global config once resolved (its worker list is empty). -/
def emptyLoadedConfig : Config :=
  ((Config.load loaderNone (Config.init [])).toOption).getD (Config.init [])

/-! ## Helper lemmas -/

/-- If every element maps successfully, `mapME` succeeds with a list of the
same length. -/
theorem mapME_ok_of_forall {α β : Type} (f : α → Except String β) (l : List α)
    (h : ∀ x ∈ l, (f x).isOk = true) :
    ∃ ys, mapME f l = .ok ys ∧ ys.length = l.length := by
  induction l with
  | nil => exact ⟨[], rfl, rfl⟩
  | cons x xs ih =>
    obtain ⟨ys, hys, hlen⟩ := ih (fun a ha => h a (List.mem_cons_of_mem x ha))
    have hx := h x (List.mem_cons_self x xs)
    cases hfx : f x with
    | error e => rw [hfx] at hx; simp [Except.isOk, Except.toBool] at hx
    | ok y => exact ⟨y :: ys, by simp [mapME, hfx, hys], by simp [hlen]⟩

/-- If some element fails, `mapME` fails. -/
theorem mapME_error_of_mem {α β : Type} (f : α → Except String β) (l : List α)
    (x : α) (hx : x ∈ l) (hbad : (f x).isOk = false) :
    ∃ e, mapME f l = .error e := by
  induction l with
  | nil => cases hx
  | cons a as ih =>
    cases hfa : f a with
    | error e => exact ⟨e, by simp [mapME, hfa]⟩
    | ok y =>
      rcases List.mem_cons.mp hx with rfl | hmem
      · rw [hfa] at hbad; simp [Except.isOk, Except.toBool] at hbad
      · obtain ⟨e, he⟩ := ih hmem
        exact ⟨e, by simp [mapME, hfa, he]⟩

/-- A `mapME` error is the error of some element. -/
theorem mapME_error_mem {α β : Type} (f : α → Except String β) (l : List α)
    (e : String) (h : mapME f l = .error e) : ∃ x ∈ l, f x = .error e := by
  induction l with
  | nil => exact Except.noConfusion h
  | cons a as ih =>
    unfold mapME at h
    cases hfa : f a with
    | error e' =>
      rw [hfa] at h
      injection h with h
      exact ⟨a, List.mem_cons_self a as, by rw [hfa, h]⟩
    | ok y =>
      rw [hfa] at h
      cases hrest : mapME f as with
      | error e' =>
        rw [hrest] at h
        injection h with h
        obtain ⟨x, hx, hfx⟩ := ih (by rw [hrest, h])
        exact ⟨x, List.mem_cons_of_mem a hx, hfx⟩
      | ok ys => rw [hrest] at h; exact Except.noConfusion h

/-- `mapME` is element-wise: position `i` of a successful output is the
successful image of position `i` of the input. -/
theorem mapME_ok_getElem {α β : Type} (f : α → Except String β) (l : List α)
    (ys : List β) (h : mapME f l = .ok ys) :
    ∀ (i : Nat) (v : α), l[i]? = some v → ∃ y, f v = .ok y ∧ ys[i]? = some y := by
  induction l generalizing ys with
  | nil => intro i v hv; simp at hv
  | cons a as ih =>
    unfold mapME at h
    cases hfa : f a with
    | error e => rw [hfa] at h; exact Except.noConfusion h
    | ok y =>
      rw [hfa] at h
      cases hrest : mapME f as with
      | error e => rw [hrest] at h; exact Except.noConfusion h
      | ok ys' =>
        rw [hrest] at h
        injection h with h
        subst h
        intro i v hv
        cases i with
        | zero =>
          simp at hv
          subst hv
          exact ⟨y, hfa, by simp⟩
        | succ n =>
          simp at hv
          obtain ⟨y', hy', hpos⟩ := ih ys' hrest n v hv
          exact ⟨y', hy', by simpa using hpos⟩

/-- A successful `mapME` preserves length. -/
theorem mapME_ok_length {α β : Type} (f : α → Except String β) (l : List α)
    (ys : List β) (h : mapME f l = .ok ys) : ys.length = l.length := by
  induction l generalizing ys with
  | nil => unfold mapME at h; injection h with h; simp [← h]
  | cons a as ih =>
    unfold mapME at h
    cases hfa : f a with
    | error e => rw [hfa] at h; exact Except.noConfusion h
    | ok y =>
      rw [hfa] at h
      cases hrest : mapME f as with
      | error e => rw [hrest] at h; exact Except.noConfusion h
      | ok ys' =>
        rw [hrest] at h
        injection h with h
        subst h
        simp [ih ys' hrest]

/-- An error of `_load_function` is precisely a string reference the loader
rejects, and the error names that reference. -/
theorem load_function_error_loader_none (loader : Loader) (v : PyVal) (s : String)
    (h : WorkerConfig._load_function loader v = .error s) : loader s = none := by
  cases v with
  | str t =>
    simp only [WorkerConfig._load_function] at h
    cases hl : loader t with
    | some a => rw [hl] at h; exact Except.noConfusion h
    | none => rw [hl] at h; injection h with h; rw [← h]; exact hl
  | obj a => exact Except.noConfusion h
  | pyNone => exact Except.noConfusion h
  | list xs => exact Except.noConfusion h

/-- Non-string values pass through `_load_function` unchanged. -/
theorem load_function_passthrough (loader : Loader) (v : PyVal)
    (h : v.isStr = false) : WorkerConfig._load_function loader v = .ok v := by
  cases v with
  | str s => simp [PyVal.isStr] at h
  | obj a => rfl
  | pyNone => rfl
  | list xs => rfl

/-- `mergeHost` in record normal form (the false branch is the identity by
structure eta). -/
theorem mergeHost_eq (w : WorkerConfig) (g : Config) :
    w.mergeHost g = { w with host := if w.host = "" then g.host else w.host } := by
  unfold WorkerConfig.mergeHost
  split <;> simp_all

/-- `mergeNamespace` in record normal form. -/
theorem mergeNamespace_eq (w : WorkerConfig) (g : Config) :
    w.mergeNamespace g
      = { w with namespace_ := if w.namespace_ = "" then g.namespace_ else w.namespace_ } := by
  unfold WorkerConfig.mergeNamespace
  split <;> simp_all

/-- `mergeFactory` in record normal form. -/
theorem mergeFactory_eq (w : WorkerConfig) (g : Config) :
    w.mergeFactory g
      = { w with _factory := if w._factory.falsy then g.factory else w._factory } := by
  unfold WorkerConfig.mergeFactory
  split <;> simp_all

/-- `mergeConverter` in record normal form. -/
theorem mergeConverter_eq (w : WorkerConfig) (g : Config) :
    w.mergeConverter g
      = { w with _converter := if w._converter.falsy then g.converter else w._converter } := by
  unfold WorkerConfig.mergeConverter
  split <;> simp_all

/-- `mergeInterceptors` in record normal form. -/
theorem mergeInterceptors_eq (w : WorkerConfig) (g : Config) :
    w.mergeInterceptors g
      = { w with _interceptors :=
            if w._interceptors.isEmpty then g.interceptors else w._interceptors } := by
  unfold WorkerConfig.mergeInterceptors
  split <;> simp_all

/-- `mergePreInit` in record normal form. -/
theorem mergePreInit_eq (w : WorkerConfig) (g : Config) :
    w.mergePreInit g
      = { w with _pre_init := if w._pre_init.isEmpty then g.pre_init else w._pre_init } := by
  unfold WorkerConfig.mergePreInit
  split <;> simp_all

/-- `mergeMcwt` in record normal form. -/
theorem mergeMcwt_eq (w : WorkerConfig) (g : Config) :
    w.mergeMcwt g
      = { w with max_concurrent_workflow_tasks :=
            if w.max_concurrent_workflow_tasks = 0 then g.max_concurrent_workflow_tasks
            else w.max_concurrent_workflow_tasks } := by
  unfold WorkerConfig.mergeMcwt
  split <;> simp_all

/-- `mergeMca` in record normal form. -/
theorem mergeMca_eq (w : WorkerConfig) (g : Config) :
    w.mergeMca g
      = { w with max_concurrent_activities :=
            if w.max_concurrent_activities = 0 then g.max_concurrent_activities
            else w.max_concurrent_activities } := by
  unfold WorkerConfig.mergeMca
  split <;> simp_all

/-- `mergeMetric` in record normal form. -/
theorem mergeMetric_eq (w : WorkerConfig) (g : Config) :
    w.mergeMetric g
      = { w with metric_bind_address :=
            if w.metric_bind_address = "" then g.metric_bind_address
            else w.metric_bind_address } := by
  unfold WorkerConfig.mergeMetric
  split <;> simp_all

/-- `_merge` in record normal form: each of the nine inheritable fields is
taken from the global config exactly when the raw field is falsy; every
other field is untouched. -/
theorem merge_eq (w : WorkerConfig) (g : Config) :
    w._merge g = { w with
      host := if w.host = "" then g.host else w.host
      namespace_ := if w.namespace_ = "" then g.namespace_ else w.namespace_
      _factory := if w._factory.falsy then g.factory else w._factory
      _converter := if w._converter.falsy then g.converter else w._converter
      _interceptors := if w._interceptors.isEmpty then g.interceptors else w._interceptors
      _pre_init := if w._pre_init.isEmpty then g.pre_init else w._pre_init
      max_concurrent_workflow_tasks :=
        if w.max_concurrent_workflow_tasks = 0 then g.max_concurrent_workflow_tasks
        else w.max_concurrent_workflow_tasks
      max_concurrent_activities :=
        if w.max_concurrent_activities = 0 then g.max_concurrent_activities
        else w.max_concurrent_activities
      metric_bind_address :=
        if w.metric_bind_address = "" then g.metric_bind_address
        else w.metric_bind_address } := by
  simp only [WorkerConfig._merge, mergeHost_eq, mergeNamespace_eq, mergeFactory_eq,
    mergeConverter_eq, mergeInterceptors_eq, mergePreInit_eq, mergeMcwt_eq, mergeMca_eq,
    mergeMetric_eq]

/-- Shape of a successful `loadRefs`: every reference stage succeeded and
the result is the input with the resolved fields filled in, `pre_init`
passed through whole, and `loaded` set. -/
theorem loadRefs_ok_shape (loader : Loader) (wm w' : WorkerConfig)
    (h : WorkerConfig.loadRefs loader wm = .ok w') :
    ∃ acts wfs ints conv fact,
      WorkerConfig._load_functions loader wm._activities = .ok acts ∧
      WorkerConfig._load_functions loader wm._workflows = .ok wfs ∧
      WorkerConfig._load_functions loader wm._interceptors = .ok ints ∧
      WorkerConfig._load_function loader wm._converter = .ok conv ∧
      WorkerConfig._load_function loader wm._factory = .ok fact ∧
      w' = { wm with
              activities := acts
              workflows := wfs
              interceptors := ints
              converter := conv
              factory := fact
              pre_init := .list wm._pre_init
              loaded := true } := by
  unfold WorkerConfig.loadRefs at h
  split at h
  · exact Except.noConfusion h
  next acts heq1 =>
  split at h
  · exact Except.noConfusion h
  next wfs heq2 =>
  split at h
  · exact Except.noConfusion h
  next ints heq3 =>
  split at h
  · exact Except.noConfusion h
  next conv heq4 =>
  split at h
  · exact Except.noConfusion h
  next fact heq5 =>
  split at h
  · exact Except.noConfusion h
  next pre heq6 =>
  have hpre : pre = .list wm._pre_init := by
    have : WorkerConfig._load_function loader (.list wm._pre_init)
        = .ok (PyVal.list wm._pre_init) := rfl
    rw [this] at heq6
    injection heq6 with heq6
    exact heq6.symm
  injection h with h
  subst hpre
  exact ⟨acts, wfs, ints, conv, fact, heq1, heq2, heq3, heq4, heq5, h.symm⟩

/-- A successful `WorkerConfig.load` implies the config was not yet loaded,
and factors through `mergeStage` and `loadRefs`. -/
theorem workerLoad_ok_shape (loader : Loader) (w : WorkerConfig) (g : Option Config)
    (w' : WorkerConfig) (h : WorkerConfig.load loader w g = .ok w') :
    w.loaded = false ∧ WorkerConfig.loadRefs loader (w.mergeStage g) = .ok w' := by
  unfold WorkerConfig.load at h
  split at h
  · exact Except.noConfusion h
  next hnl => exact ⟨Bool.not_eq_true _ ▸ Bool.of_not_eq_true hnl, h⟩

/-- A successful `Config.load` implies the config was not yet loaded, every
per-worker load succeeded, and the result appends the loaded workers and
sets the `loaded` flag. -/
theorem configLoad_ok_shape (loader : Loader) (c c' : Config)
    (h : Config.load loader c = .ok c') :
    c.loaded = false ∧
    ∃ ws, mapME (fun it => WorkerConfig.load loader it.toWorker (some c)) c._workers = .ok ws ∧
      c' = { c with workers := c.workers ++ ws, loaded := true } := by
  unfold Config.load at h
  split at h
  next hl => exact Except.noConfusion h
  next hnl =>
  constructor
  · exact Bool.of_not_eq_true hnl
  split at h
  · exact Except.noConfusion h
  next ws heq =>
  injection h with h
  exact ⟨ws, heq, h.symm⟩

/-- `mergeStage` applies `_merge` exactly in merge mode. -/
theorem mergeStage_merge (w : WorkerConfig) (g : Config) (h : w.behavior = "merge") :
    w.mergeStage (some g) = w._merge g := by
  simp [WorkerConfig.mergeStage, h]

/-- `mergeStage` is the identity when the behavior is not `"merge"`. -/
theorem mergeStage_skip (w : WorkerConfig) (g : Config) (h : ¬ w.behavior = "merge") :
    w.mergeStage (some g) = w := by
  simp [WorkerConfig.mergeStage, h]

/-- `loadRefs` never touches the plain (non-reference) fields, passes
`pre_init` through whole, and sets `loaded`. -/
theorem loadRefs_plain_fields (loader : Loader) (wm w' : WorkerConfig)
    (h : WorkerConfig.loadRefs loader wm = .ok w') :
    w'.host = wm.host ∧ w'.namespace_ = wm.namespace_ ∧
    w'.max_concurrent_workflow_tasks = wm.max_concurrent_workflow_tasks ∧
    w'.max_concurrent_activities = wm.max_concurrent_activities ∧
    w'.metric_bind_address = wm.metric_bind_address ∧
    w'.loaded = true ∧ w'.pre_init = .list wm._pre_init ∧
    w'.name = wm.name ∧ w'.queue = wm.queue ∧ w'.behavior = wm.behavior := by
  obtain ⟨acts, wfs, ints, conv, fact, _, _, _, _, _, hw⟩ := loadRefs_ok_shape loader wm w' h
  subst hw
  exact ⟨rfl, rfl, rfl, rfl, rfl, rfl, rfl, rfl, rfl, rfl⟩

/-- Any error of `loadRefs` is a string reference the loader rejects. -/
theorem loadRefs_error_loader_none (loader : Loader) (wm : WorkerConfig) (s : String)
    (h : WorkerConfig.loadRefs loader wm = .error s) : loader s = none := by
  unfold WorkerConfig.loadRefs at h
  split at h
  next e heq =>
    injection h with h
    obtain ⟨x, _, hx⟩ := mapME_error_mem _ _ _ (h ▸ heq)
    exact load_function_error_loader_none loader x s hx
  next heq1 =>
  split at h
  next e heq =>
    injection h with h
    obtain ⟨x, _, hx⟩ := mapME_error_mem _ _ _ (h ▸ heq)
    exact load_function_error_loader_none loader x s hx
  next heq2 =>
  split at h
  next e heq =>
    injection h with h
    obtain ⟨x, _, hx⟩ := mapME_error_mem _ _ _ (h ▸ heq)
    exact load_function_error_loader_none loader x s hx
  next heq3 =>
  split at h
  next e heq =>
    injection h with h
    exact load_function_error_loader_none loader _ s (h ▸ heq)
  next heq4 =>
  split at h
  next e heq =>
    injection h with h
    exact load_function_error_loader_none loader _ s (h ▸ heq)
  next heq5 =>
  split at h
  next e heq =>
    injection h with h
    exact load_function_error_loader_none loader _ s (h ▸ heq)
  next heq6 => exact Except.noConfusion h

/-- A failed `WorkerConfig.load` of a not-yet-loaded config reports a
reference the loader rejects. -/
theorem workerLoad_error_loader_none (loader : Loader) (w : WorkerConfig)
    (g : Option Config) (s : String) (hnl : w.loaded = false)
    (h : WorkerConfig.load loader w g = .error s) : loader s = none := by
  unfold WorkerConfig.load at h
  split at h
  next hl => rw [hnl] at hl; exact absurd hl (by simp)
  next => exact loadRefs_error_loader_none loader _ s h

/-- A successfully loaded worker config is marked loaded. -/
theorem workerLoad_ok_loaded (loader : Loader) (w : WorkerConfig) (g : Option Config)
    (w' : WorkerConfig) (h : WorkerConfig.load loader w g = .ok w') : w'.loaded = true := by
  obtain ⟨_, hrefs⟩ := workerLoad_ok_shape loader w g w' h
  exact (loadRefs_plain_fields loader _ w' hrefs).2.2.2.2.2.1

/-- A successfully loaded global config is marked loaded. -/
theorem configLoad_ok_loaded (loader : Loader) (c c' : Config)
    (h : Config.load loader c = .ok c') : c'.loaded = true := by
  obtain ⟨_, ws, _, hc⟩ := configLoad_ok_shape loader c c' h
  subst hc
  rfl

/-- `WorkerConfig.load` on an already-loaded config fails the assertion. -/
theorem workerLoad_of_loaded (loader : Loader) (w : WorkerConfig) (g : Option Config)
    (h : w.loaded = true) :
    WorkerConfig.load loader w g = .error "assert not self.loaded" := by
  unfold WorkerConfig.load
  simp [h]

/-- `Config.load` on an already-loaded config fails the assertion. -/
theorem configLoad_of_loaded (loader : Loader) (c : Config) (h : c.loaded = true) :
    Config.load loader c = .error "assert not self.loaded" := by
  unfold Config.load
  simp [h]

/-! ## Claim theorems -/

/-- Claim C1, counterexample: a worker list with two raw configs both named
`"w1"` resolves successfully — `Config.load` performs no name-uniqueness
check and returns both resolved specs, so no `ConfigError` ever occurs. -/
theorem config_load_duplicate_names_resolve :
    (Config.load loaderNone dupNameConfig).map (fun c => c.workers.map (fun w => w.name))
      = .ok ["w1", "w1"] ∧ (Config.load loaderNone dupNameConfig).isOk = true :=
  ⟨rfl, rfl⟩

/-- Claim C1, amended: resolution never inspects worker names — whenever
every raw worker's references load, `Config.load` succeeds and returns one
resolved spec per raw entry, duplicate names included. -/
theorem config_load_ignores_name_duplication (loader : Loader) (g : Config)
    (hnl : g.loaded = false)
    (hok : ∀ it ∈ g._workers,
      (WorkerConfig.load loader it.toWorker (some g)).isOk = true) :
    ∃ c', Config.load loader g = .ok c' ∧
      c'.workers.length = g.workers.length + g._workers.length := by
  obtain ⟨ws, hws, hlen⟩ := mapME_ok_of_forall _ _ hok
  refine ⟨{ g with workers := g.workers ++ ws, loaded := true }, ?_, by simp [hlen]⟩
  unfold Config.load
  simp [hnl, hws]

/-- Witness for C1's amended theorem at the duplicate-name input. -/
theorem config_load_ignores_name_duplication_witness :
    ∃ c', Config.load loaderNone dupNameConfig = .ok c' ∧
      c'.workers.length
        = dupNameConfig.workers.length + dupNameConfig._workers.length :=
  config_load_ignores_name_duplication loaderNone dupNameConfig rfl (by
    intro it hit
    simp only [dupNameConfig, Config.init, List.mem_cons, List.not_mem_nil, or_false] at hit
    rcases hit with rfl | rfl <;> rfl)

/-- Claim C2: delivering a second identical termination signal to a
supervisor that is already stopping issues a second round of
`Worker.shutdown()` calls — `handle_exit` has no one-shot guard, so the
running worker receives two shutdown calls, not exactly one. -/
theorem handle_exit_second_signal_repeats_shutdown :
    (((Looper.init ["w1"]).handle_exit SIGTERM).handle_exit SIGTERM).shutdownCalls
      = ["w1", "w1"] ∧
    (((Looper.init ["w1"]).handle_exit SIGTERM).handle_exit SIGTERM).shutdownCalls.length
      ≠ 1 :=
  ⟨rfl, by decide⟩

/-- Claim C4, counterexample: a merge-mode worker whose
`max_concurrent_activities` was explicitly passed as `0` is resolved to the
global value `100` — the explicitly-set falsy value does not survive. -/
theorem merge_overwrites_explicit_falsy_fields :
    (WorkerConfig.load loaderNone explicitZeroWorker (some (Config.init []))).map
        (fun w => w.max_concurrent_activities) = .ok 100 ∧ ((100 : Int) ≠ 0) :=
  ⟨rfl, by decide⟩

/-- Claim C4, amended: resolution never overwrites an explicitly-set
*truthy* field — in merge mode every truthy field survives `_merge`
verbatim, and in non-merge mode the merge step is skipped entirely so the
plain fields always survive resolution. -/
theorem resolution_preserves_truthy_explicit_fields :
    (∀ (w : WorkerConfig) (g : Config),
      (w.host ≠ "" → (w._merge g).host = w.host) ∧
      (w.namespace_ ≠ "" → (w._merge g).namespace_ = w.namespace_) ∧
      (w._factory.falsy = false → (w._merge g)._factory = w._factory) ∧
      (w._converter.falsy = false → (w._merge g)._converter = w._converter) ∧
      (w._interceptors.isEmpty = false → (w._merge g)._interceptors = w._interceptors) ∧
      (w._pre_init.isEmpty = false → (w._merge g)._pre_init = w._pre_init) ∧
      (w.max_concurrent_workflow_tasks ≠ 0 →
        (w._merge g).max_concurrent_workflow_tasks = w.max_concurrent_workflow_tasks) ∧
      (w.max_concurrent_activities ≠ 0 →
        (w._merge g).max_concurrent_activities = w.max_concurrent_activities) ∧
      (w.metric_bind_address ≠ "" →
        (w._merge g).metric_bind_address = w.metric_bind_address)) ∧
    (∀ (loader : Loader) (w : WorkerConfig) (g : Config) (w' : WorkerConfig),
      w.behavior ≠ "merge" → WorkerConfig.load loader w (some g) = .ok w' →
      w'.host = w.host ∧ w'.namespace_ = w.namespace_ ∧
      w'.max_concurrent_workflow_tasks = w.max_concurrent_workflow_tasks ∧
      w'.max_concurrent_activities = w.max_concurrent_activities ∧
      w'.metric_bind_address = w.metric_bind_address) := by
  constructor
  · intro w g
    refine ⟨fun h => ?_, fun h => ?_, fun h => ?_, fun h => ?_, fun h => ?_, fun h => ?_,
      fun h => ?_, fun h => ?_, fun h => ?_⟩ <;> simp [merge_eq, h]
  · intro loader w g w' hb h
    obtain ⟨hnl, hrefs⟩ := workerLoad_ok_shape loader w (some g) w' h
    rw [mergeStage_skip w g hb] at hrefs
    obtain ⟨h1, h2, h3, h4, h5, _⟩ := loadRefs_plain_fields loader w w' hrefs
    exact ⟨h1, h2, h3, h4, h5⟩

/-- Witness for C4's amended theorem: the all-truthy merge-mode worker keeps
its own host, and the isolated worker's host survives an actual load. -/
theorem resolution_preserves_truthy_explicit_fields_witness :
    (truthyWorker._merge (Config.init [])).host = truthyWorker.host ∧
    isoLoaded.host = isoWorker.host :=
  ⟨(resolution_preserves_truthy_explicit_fields.1 truthyWorker (Config.init [])).1
      (by decide),
   (resolution_preserves_truthy_explicit_fields.2 loaderNone isoWorker (Config.init [])
      isoLoaded (by decide) rfl).1⟩

/-- Claim C5: if any single name-based reference of any raw worker fails to
load, the whole `Config.load` pass aborts with an error naming an
unresolvable reference, and no resolved worker list is ever returned. -/
theorem config_load_ref_failure_aborts_all (loader : Loader) (g : Config)
    (hnl : g.loaded = false)
    (hitems : ∀ it ∈ g._workers, it.toWorker.loaded = false)
    (hfail : ∃ it ∈ g._workers,
      (WorkerConfig.load loader it.toWorker (some g)).isOk = false) :
    ∃ s, Config.load loader g = .error s ∧ loader s = none ∧
      ∀ c', Config.load loader g ≠ .ok c' := by
  obtain ⟨it, hmem, hbad⟩ := hfail
  obtain ⟨e, he⟩ := mapME_error_of_mem
    (fun it => WorkerConfig.load loader it.toWorker (some g)) g._workers it hmem hbad
  have hload : Config.load loader g = .error e := by
    unfold Config.load
    simp [hnl, he]
  obtain ⟨x, hx, hfx⟩ := mapME_error_mem _ _ _ he
  refine ⟨e, hload, workerLoad_error_loader_none loader _ _ e (hitems x hx) hfx, ?_⟩
  intro c' hc'
  rw [hload] at hc'
  exact Except.noConfusion hc'

/-- Witness for C5 at a config whose second worker holds the dangling
reference `"missing:ref"`. -/
theorem config_load_ref_failure_aborts_all_witness :
    ∃ s, Config.load loaderNone danglingRefConfig = .error s ∧ loaderNone s = none ∧
      ∀ c', Config.load loaderNone danglingRefConfig ≠ .ok c' :=
  config_load_ref_failure_aborts_all loaderNone danglingRefConfig rfl
    (by
      intro it hit
      simp only [danglingRefConfig, Config.init, List.mem_cons, List.not_mem_nil,
        or_false] at hit
      rcases hit with rfl | rfl <;> rfl)
    ⟨.dict { concreteArgs "bad" with converter := .str "missing:ref" },
      by simp [danglingRefConfig, Config.init], rfl⟩

/-- Claim C8: resolution is guarded against double invocation — a
`Config.load` or `WorkerConfig.load` that has already run leaves the object
marked loaded, and running it again fails the `assert not self.loaded`
immediately instead of silently producing a duplicated worker list. -/
theorem resolving_twice_fails_fast :
    (∀ (loader loader2 : Loader) (c c' : Config), Config.load loader c = .ok c' →
      ∀ c'', Config.load loader2 c' ≠ .ok c'') ∧
    (∀ (loader loader2 : Loader) (g g' : Option Config) (w w' : WorkerConfig),
      WorkerConfig.load loader w g = .ok w' →
      ∀ w'', WorkerConfig.load loader2 w' g' ≠ .ok w'') := by
  constructor
  · intro loader loader2 c c' h c'' hc
    rw [configLoad_of_loaded loader2 c' (configLoad_ok_loaded loader c c' h)] at hc
    exact Except.noConfusion hc
  · intro loader loader2 g g' w w' h w'' hw
    rw [workerLoad_of_loaded loader2 w' g' (workerLoad_ok_loaded loader w g w' h)] at hw
    exact Except.noConfusion hw

/-- Witness for C8: reloading the already-resolved default global config and
the already-resolved isolated worker both fail. -/
theorem resolving_twice_fails_fast_witness :
    Config.load loaderNone emptyLoadedConfig ≠ .ok emptyLoadedConfig ∧
    WorkerConfig.load loaderNone isoLoaded (some (Config.init [])) ≠ .ok isoLoaded :=
  ⟨resolving_twice_fails_fast.1 loaderNone loaderNone (Config.init []) emptyLoadedConfig
      rfl emptyLoadedConfig,
   resolving_twice_fails_fast.2 loaderNone loaderNone (some (Config.init []))
      (some (Config.init [])) isoWorker isoLoaded rfl isoLoaded⟩

/-- Claim C10: the worker handed to the runtime is always constructed with
`disable_eager_activity_execution=False` (the literal at worker.py line 97),
the config's own field — whose `__init__` default is `True` — has no effect
on the constructed worker. -/
theorem worker_constructed_with_eager_execution :
    (∀ config : WorkerConfig,
      (WorkerFactory.workerArgs config).disable_eager_activity_execution = false) ∧
    (∀ (config : WorkerConfig) (b : Bool),
      WorkerFactory.workerArgs { config with disable_eager_activity_execution := b }
        = WorkerFactory.workerArgs config) ∧
    (∀ name : String, (WorkerArgs.default name).disable_eager_activity_execution = true) :=
  ⟨fun _ => rfl, fun _ _ => rfl, fun _ => rfl⟩

/-- Claim C3, counterexample: an isolated-behavior worker with every
optional field unset does not resolve to type-level defaults — resolution
aborts, because the unset factory reference (the empty string, falsy and
not merged) is handed to the loader, which rejects the empty name.  No
resolved spec exists at this input. -/
theorem isolated_unset_factory_aborts_resolution :
    WorkerConfig.load loaderNone (WorkerConfig.init isolatedArgs) (some (Config.init []))
      = .error "" ∧
    ∀ w', WorkerConfig.load loaderNone (WorkerConfig.init isolatedArgs)
      (some (Config.init [])) ≠ .ok w' := by
  refine ⟨rfl, fun w' h => ?_⟩
  rw [(rfl : WorkerConfig.load loaderNone (WorkerConfig.init isolatedArgs)
      (some (Config.init [])) = .error "")] at h
  exact Except.noConfusion h

/-- Claim C3, amended: in merge mode every unset inheritable field takes the
global value (raw fields at the merge step, plain fields end-to-end through
`load`); in isolated mode resolution skips the merge so every unset field
other than the factory reference keeps its type-level default in the
resolved spec — but the unset factory reference (default `""`) is passed to
the loader, so an isolated worker with no factory aborts resolution
whenever the loader rejects the empty name. -/
theorem merge_inherits_unset_isolated_keeps_defaults :
    (∀ (w : WorkerConfig) (g : Config),
      (w.host = "" → (w._merge g).host = g.host) ∧
      (w.namespace_ = "" → (w._merge g).namespace_ = g.namespace_) ∧
      (w._factory.falsy = true → (w._merge g)._factory = g.factory) ∧
      (w._converter.falsy = true → (w._merge g)._converter = g.converter) ∧
      (w._interceptors = [] → (w._merge g)._interceptors = g.interceptors) ∧
      (w._pre_init = [] → (w._merge g)._pre_init = g.pre_init) ∧
      (w.max_concurrent_workflow_tasks = 0 →
        (w._merge g).max_concurrent_workflow_tasks = g.max_concurrent_workflow_tasks) ∧
      (w.max_concurrent_activities = 0 →
        (w._merge g).max_concurrent_activities = g.max_concurrent_activities) ∧
      (w.metric_bind_address = "" →
        (w._merge g).metric_bind_address = g.metric_bind_address)) ∧
    (∀ (loader : Loader) (w : WorkerConfig) (g : Config) (w' : WorkerConfig),
      w.behavior = "merge" → WorkerConfig.load loader w (some g) = .ok w' →
      (w.host = "" → w'.host = g.host) ∧
      (w.namespace_ = "" → w'.namespace_ = g.namespace_) ∧
      (w.max_concurrent_workflow_tasks = 0 →
        w'.max_concurrent_workflow_tasks = g.max_concurrent_workflow_tasks) ∧
      (w.max_concurrent_activities = 0 →
        w'.max_concurrent_activities = g.max_concurrent_activities) ∧
      (w.metric_bind_address = "" → w'.metric_bind_address = g.metric_bind_address)) ∧
    (∀ (loader : Loader) (w : WorkerConfig) (g : Config) (w' : WorkerConfig),
      w.behavior = "isolated" → WorkerConfig.load loader w (some g) = .ok w' →
      (w.host = "" → w'.host = "") ∧
      (w.namespace_ = "" → w'.namespace_ = "") ∧
      (w._converter = .pyNone → w'.converter = .pyNone) ∧
      (w._interceptors = [] → w'.interceptors = []) ∧
      (w._pre_init = [] → w'.pre_init = .list []) ∧
      (w.max_concurrent_workflow_tasks = 0 → w'.max_concurrent_workflow_tasks = 0) ∧
      (w.max_concurrent_activities = 0 → w'.max_concurrent_activities = 0) ∧
      (w.metric_bind_address = "" → w'.metric_bind_address = "")) ∧
    (∀ (loader : Loader) (w : WorkerConfig) (g : Config),
      w.behavior = "isolated" → w.loaded = false → w._factory = .str "" →
      loader "" = none →
      ∀ w', WorkerConfig.load loader w (some g) ≠ .ok w') := by
  refine ⟨?_, ?_, ?_, ?_⟩
  · intro w g
    refine ⟨fun h => ?_, fun h => ?_, fun h => ?_, fun h => ?_, fun h => ?_, fun h => ?_,
      fun h => ?_, fun h => ?_, fun h => ?_⟩ <;> simp [merge_eq, h]
  · intro loader w g w' hb h
    obtain ⟨hnl, hrefs⟩ := workerLoad_ok_shape loader w (some g) w' h
    rw [mergeStage_merge w g hb] at hrefs
    obtain ⟨h1, h2, h3, h4, h5, _⟩ := loadRefs_plain_fields loader _ w' hrefs
    exact ⟨fun hh => by rw [h1]; simp [merge_eq, hh],
           fun hh => by rw [h2]; simp [merge_eq, hh],
           fun hh => by rw [h3]; simp [merge_eq, hh],
           fun hh => by rw [h4]; simp [merge_eq, hh],
           fun hh => by rw [h5]; simp [merge_eq, hh]⟩
  · intro loader w g w' hb h
    obtain ⟨hnl, hrefs⟩ := workerLoad_ok_shape loader w (some g) w' h
    rw [mergeStage_skip w g (by rw [hb]; decide)] at hrefs
    obtain ⟨acts, wfs, ints, conv, fact, ha, hwf, hi, hc, hfac, hweq⟩ :=
      loadRefs_ok_shape loader w w' hrefs
    subst hweq
    refine ⟨fun hh => by simp [hh], fun hh => by simp [hh], fun hh => ?_, fun hh => ?_,
      fun hh => by simp [hh], fun hh => by simp [hh], fun hh => by simp [hh],
      fun hh => by simp [hh]⟩
    · rw [hh] at hc
      injection hc with hc
      simpa using hc.symm
    · rw [hh] at hi
      have : (WorkerConfig._load_functions loader ([] : List PyVal)) = .ok [] := rfl
      rw [this] at hi
      injection hi with hi
      simpa using hi.symm
  · intro loader w g hb hnl hf hl w' hok
    obtain ⟨_, hrefs⟩ := workerLoad_ok_shape loader w (some g) w' hok
    rw [mergeStage_skip w g (by rw [hb]; decide)] at hrefs
    obtain ⟨acts, wfs, ints, conv, fact, ha, hwf, hi, hc, hfac, hweq⟩ :=
      loadRefs_ok_shape loader w w' hrefs
    rw [hf] at hfac
    simp only [WorkerConfig._load_function] at hfac
    rw [hl] at hfac
    exact Except.noConfusion hfac

/-- Witness for C3's amended theorem: unset merge-mode fields inherit, the
concrete isolated worker keeps its empty host, and the all-default isolated
worker fails to resolve. -/
theorem merge_inherits_unset_isolated_keeps_defaults_witness :
    (unsetWorker._merge (Config.init [])).host = (Config.init []).host ∧
    unsetLoaded.host = (Config.init []).host ∧
    isoLoaded.host = "" ∧
    WorkerConfig.load loaderNone (WorkerConfig.init isolatedArgs)
      (some (Config.init [])) ≠ .ok isoWorker :=
  ⟨(merge_inherits_unset_isolated_keeps_defaults.1 unsetWorker (Config.init [])).1 rfl,
   (merge_inherits_unset_isolated_keeps_defaults.2.1 loaderNone unsetWorker
      (Config.init []) unsetLoaded rfl rfl).1 rfl,
   (merge_inherits_unset_isolated_keeps_defaults.2.2.1 loaderNone isoWorker
      (Config.init []) isoLoaded rfl rfl).1 rfl,
   merge_inherits_unset_isolated_keeps_defaults.2.2.2 loaderNone
      (WorkerConfig.init isolatedArgs) (Config.init []) rfl rfl rfl rfl isoWorker⟩

/-- A construction-event list contains no run events positionally. -/
theorem construct_map_no_run (ws : List WorkerConfig) (i : Nat) (n : String)
    (h : (ws.map (fun w => LEvent.construct w.name))[i]? = some (LEvent.workerRun n)) :
    False := by
  rw [List.getElem?_map] at h
  cases hw : ws[i]? with
  | none => rw [hw] at h; exact Option.noConfusion h
  | some w =>
    rw [hw] at h
    injection h with h
    exact LEvent.noConfusion h

/-- A run-event list contains no construction events positionally. -/
theorem run_map_no_construct (hs : List String) (i : Nat) (n : String)
    (h : (hs.map LEvent.workerRun)[i]? = some (LEvent.construct n)) : False := by
  rw [List.getElem?_map] at h
  cases hw : hs[i]? with
  | none => rw [hw] at h; exact Option.noConfusion h
  | some w =>
    rw [hw] at h
    injection h with h
    exact LEvent.noConfusion h

/-- Case analysis for `Looper.runTrace`: config-load failure (empty trace),
construction failure (construction events only), or full success
(construction events followed by run events). -/
theorem runTrace_cases (loader : Loader) (build : WorkerConfig → Except String String)
    (c : Config) :
    (∃ e, (if c.loaded then Except.ok c else Config.load loader c) = .error e ∧
      Looper.runTrace loader build c = ([], .error e)) ∨
    (∃ cfg e, (if c.loaded then Except.ok c else Config.load loader c) = .ok cfg ∧
      Looper.prepare_workers build cfg.workers = .error e ∧
      Looper.runTrace loader build c
        = (cfg.workers.map (fun w => LEvent.construct w.name), .error e)) ∨
    (∃ cfg handles, (if c.loaded then Except.ok c else Config.load loader c) = .ok cfg ∧
      Looper.prepare_workers build cfg.workers = .ok handles ∧
      Looper.runTrace loader build c
        = (cfg.workers.map (fun w => LEvent.construct w.name)
            ++ handles.map LEvent.workerRun, .ok ())) := by
  unfold Looper.runTrace
  cases hcfg : (if c.loaded then Except.ok c else Config.load loader c) with
  | error e => exact Or.inl ⟨e, rfl, rfl⟩
  | ok cfg =>
    cases hprep : Looper.prepare_workers build cfg.workers with
    | error e => exact Or.inr (Or.inl ⟨cfg, e, rfl, hprep, by simp [hprep]⟩)
    | ok handles => exact Or.inr (Or.inr ⟨cfg, handles, rfl, hprep, by simp [hprep]⟩)

/-- Claim C6: the supervisor's trace places every `Worker.run()` event after
every construction event (the construction barrier), and when any single
worker's construction fails no `Worker.run()` event occurs at all — not
even for workers whose construction succeeded. -/
theorem no_worker_runs_unless_all_constructed :
    (∀ (loader : Loader) (build : WorkerConfig → Except String String) (c : Config)
       (i j : Nat) (ni nj : String),
       (Looper.runTrace loader build c).1[i]? = some (LEvent.workerRun ni) →
       (Looper.runTrace loader build c).1[j]? = some (LEvent.construct nj) → j < i) ∧
    (∀ (loader : Loader) (build : WorkerConfig → Except String String) (c : Config)
       (w : WorkerConfig), c.loaded = true → w ∈ c.workers → (build w).isOk = false →
       ∀ n, LEvent.workerRun n ∉ (Looper.runTrace loader build c).1) := by
  constructor
  · intro loader build c i j ni nj hi hj
    rcases runTrace_cases loader build c with ⟨e, hcfg, htr⟩ |
      ⟨cfg, e, hcfg, hprep, htr⟩ | ⟨cfg, handles, hcfg, hprep, htr⟩
    · rw [htr] at hi
      simp at hi
    · rw [htr] at hi
      exact absurd hi (by intro hi; exact construct_map_no_run cfg.workers i ni hi)
    · rw [htr] at hi hj
      have hjlt : j < (cfg.workers.map (fun w => LEvent.construct w.name)).length := by
        by_contra hj'
        rw [List.getElem?_append] at hj
        rw [if_neg hj'] at hj
        exact run_map_no_construct handles _ nj hj
      have hige : (cfg.workers.map (fun w => LEvent.construct w.name)).length ≤ i := by
        by_contra hi'
        push_neg at hi'
        rw [List.getElem?_append] at hi
        rw [if_pos hi'] at hi
        exact construct_map_no_run cfg.workers i ni hi
      omega
  · intro loader build c w hc hw hbad n hmem
    rcases runTrace_cases loader build c with ⟨e, hcfg, htr⟩ |
      ⟨cfg, e, hcfg, hprep, htr⟩ | ⟨cfg, handles, hcfg, hprep, htr⟩
    · rw [htr] at hmem
      simp at hmem
    · rw [htr] at hmem
      obtain ⟨w', _, hw'⟩ := List.mem_map.mp hmem
      exact LEvent.noConfusion hw'
    · simp only [hc, if_pos] at hcfg
      injection hcfg with hcfg
      subst hcfg
      obtain ⟨e, he⟩ := mapME_error_of_mem build c.workers w hw hbad
      unfold Looper.prepare_workers at hprep
      rw [he] at hprep
      exact Except.noConfusion hprep

/-- Witness for C6: in the fully successful two-worker run the first
construction event precedes the first run event, and with the failing
builder no run event occurs. -/
theorem no_worker_runs_unless_all_constructed_witness :
    (0 : Nat) < 2 ∧
    ∀ n, LEvent.workerRun n ∉ (Looper.runTrace loaderNone buildBFails twoWorkerConfig).1 :=
  ⟨no_worker_runs_unless_all_constructed.1 loaderNone buildOk twoWorkerConfig 2 0 "a" "a"
      rfl rfl,
   no_worker_runs_unless_all_constructed.2 loaderNone buildBFails twoWorkerConfig
      { WorkerConfig.init (concreteArgs "b") with loaded := true } rfl
      (by simp [twoWorkerConfig, Config.init]) rfl⟩

/-- Claim C7: string references resolve to loaded artifacts and concrete
artifacts pass through unchanged; the activities, workflows and interceptor
lists are resolved element-wise preserving order and length — but the
pre-init list is not: `load` hands the whole list to the scalar
`_load_function`, which passes it through, so a string reference inside
`pre_init` survives unresolved while the identical reference in
`activities` is resolved. -/
theorem reference_lists_elementwise_but_pre_init_unresolved :
    (∀ (loader : Loader) (v : PyVal), v.isStr = false →
      WorkerConfig._load_function loader v = .ok v) ∧
    (∀ (loader : Loader) (l ys : List PyVal),
      WorkerConfig._load_functions loader l = .ok ys →
      ys.length = l.length ∧
      (∀ (i : Nat) (v : PyVal), l[i]? = some v → v.isStr = false → ys[i]? = some v) ∧
      (∀ (i : Nat) (s : String), l[i]? = some (.str s) →
        ∃ a, loader s = some a ∧ ys[i]? = some (.obj a))) ∧
    ((WorkerConfig.load loaderModF preInitWorker (some (Config.init []))).map
        (fun w => (w.activities, w.pre_init))
      = .ok ([.obj 7], .list [.str "mod:f"])) := by
  refine ⟨load_function_passthrough, ?_, rfl⟩
  intro loader l ys h
  refine ⟨mapME_ok_length _ _ _ h, ?_, ?_⟩
  · intro i v hv hstr
    obtain ⟨y, hy, hpos⟩ := mapME_ok_getElem _ _ _ h i v hv
    rw [load_function_passthrough loader v hstr] at hy
    injection hy with hy
    rw [← hy] at hpos
    exact hpos
  · intro i s hv
    obtain ⟨y, hy, hpos⟩ := mapME_ok_getElem _ _ _ h i _ hv
    simp only [WorkerConfig._load_function] at hy
    cases hl : loader s with
    | none => rw [hl] at hy; exact Except.noConfusion hy
    | some a =>
      rw [hl] at hy
      injection hy with hy
      rw [← hy] at hpos
      exact ⟨a, rfl, hpos⟩

/-- Witness for C7: a concrete artifact passes through, and the two-element
list with one string reference resolves element-wise under `loaderModF`. -/
theorem reference_lists_elementwise_but_pre_init_unresolved_witness :
    WorkerConfig._load_function loaderNone (.obj 5) = .ok (.obj 5) ∧
    ([PyVal.obj 7, PyVal.obj 2] : List PyVal).length
      = ([PyVal.str "mod:f", PyVal.obj 2] : List PyVal).length ∧
    ∃ a, loaderModF "mod:f" = some a ∧
      ([PyVal.obj 7, PyVal.obj 2] : List PyVal)[0]? = some (.obj a) :=
  ⟨reference_lists_elementwise_but_pre_init_unresolved.1 loaderNone (.obj 5) rfl,
   (reference_lists_elementwise_but_pre_init_unresolved.2.1 loaderModF
      [.str "mod:f", .obj 2] [.obj 7, .obj 2] rfl).1,
   (reference_lists_elementwise_but_pre_init_unresolved.2.1 loaderModF
      [.str "mod:f", .obj 2] [.obj 7, .obj 2] rfl).2.2 0 "mod:f" rfl⟩

/-- Claim C9: in the factory's construction trace the pre-init hooks appear
first, one per hook in list order, and every one of them precedes the
`Client.connect` call to the configured endpoint. -/
theorem preinit_hooks_ordered_before_connect (w : WorkerConfig) :
    ∃ j : Nat,
      (WorkerFactory.new_workerTrace w)[j]? = some (FEvent.connect w.host w.namespace_) ∧
      ∀ k : Nat, k < w.pre_init.elems.length →
        (WorkerFactory.new_workerTrace w)[k]?
          = (w.pre_init.elems[k]?).map FEvent.preinit ∧ k < j := by
  refine ⟨w.pre_init.elems.length + (if w.metric_bind_address = "" then 0 else 1), ?_, ?_⟩
  · by_cases hm : w.metric_bind_address = ""
    · have htr : WorkerFactory.new_workerTrace w
          = (w.pre_init.elems.map FEvent.preinit)
            ++ [FEvent.connect w.host w.namespace_,
                FEvent.buildWorker w.name w.queue] := by
        simp [WorkerFactory.new_workerTrace, WorkerFactory.execute_preinit, hm]
      rw [htr, List.getElem?_append]
      simp [hm]
    · have htr : WorkerFactory.new_workerTrace w
          = (w.pre_init.elems.map FEvent.preinit)
            ++ [FEvent.newRuntime w.metric_bind_address,
                FEvent.connect w.host w.namespace_,
                FEvent.buildWorker w.name w.queue] := by
        simp [WorkerFactory.new_workerTrace, WorkerFactory.execute_preinit, hm]
      rw [htr, List.getElem?_append]
      simp [hm]
  · intro k hk
    constructor
    · have hk' : k < (w.pre_init.elems.map FEvent.preinit).length := by simpa using hk
      unfold WorkerFactory.new_workerTrace WorkerFactory.execute_preinit
      rw [List.append_assoc, List.append_assoc, List.getElem?_append, if_pos hk',
        List.getElem?_map]
    · exact Nat.lt_of_lt_of_le hk (Nat.le_add_right _ _)

/-- Witness for C9 at the concrete two-hook worker spec. -/
theorem preinit_hooks_ordered_before_connect_witness :
    ∃ j : Nat,
      (WorkerFactory.new_workerTrace tracedWorker)[j]?
        = some (FEvent.connect tracedWorker.host tracedWorker.namespace_) ∧
      ∀ k : Nat, k < tracedWorker.pre_init.elems.length →
        (WorkerFactory.new_workerTrace tracedWorker)[k]?
          = (tracedWorker.pre_init.elems[k]?).map FEvent.preinit ∧ k < j :=
  preinit_hooks_ordered_before_connect tracedWorker
